import Mathlib

/-!
Shallow embedding of the regional-cli repository core (Go) in Lean 4:
the deployment orchestrator (`Deployer.Deploy` and its step methods), the
package builder (`PackageBuilder.Build` / `createZipPackage`), the policy
generator (`GenerateLambdaResourcePolicy` and friends) and the OIDC
provisioner handler (`Handler.Handle`, `validateRequest`,
`checkProviderExists`, `createProvider`, `tagProvider`).

External collaborators (the AWS SDK clients, the Go compiler invocation,
the `archive/zip` serializer and the `crypto/sha256` digest from the Go
standard library) are modelled as environment records whose fields hold
the outcome of each remote / external call; the embedded functions
additionally emit a trace (`List Call`) of the remote calls they issue,
with the request fields the source code passes.  Go strings are Lean
`String`s (list-of-char based), byte slices are `List Nat`.
-/

namespace RegionalCli

/-- Model of Go `strings.TrimSuffix(s, "/")` as used throughout the
handler: if `s` ends with `"/"` drop that single trailing character,
otherwise return `s` unchanged. -/
def trimSuffixSlash (s : String) : String :=
  if s.data.getLast? = some '/' then String.mk s.data.dropLast else s

/-! ### Model of Go `net/url.Parse`, restricted to scheme and host

`validateRequest` only inspects `parsedURL.Scheme` and `parsedURL.Host`.
We model (from the Go standard library's `net/url`) the scheme split
(`getScheme`: a leading run of ASCII letters, digits, `+`, `-`, `.`
starting with a letter, terminated by `:`; a `:` at position 0 is the
`missing protocol scheme` parse error), lowercasing of the scheme, and
host extraction (when the remainder starts with `//`, the authority runs
up to the next `/`, `?` or `#`, and the host is the part of the
authority after the last `@`).  Exotic parse errors (control characters,
malformed ports or percent-encodings) are outside the modelled fragment
and are not relied on by any theorem. -/

structure GoURL where
  scheme : String
  host : String
deriving DecidableEq

/-- Scheme scanner of `net/url` (`getScheme`): `seen` holds the scanned
characters in reverse.  Returns the (lowercased) scheme and the rest, or
`([], whole string)` when there is no scheme. -/
def goGetSchemeAux (seen : List Char) : List Char → Except String (List Char × List Char)
  | [] => .ok ([], seen.reverse)
  | c :: cs =>
    if c.isAlpha then goGetSchemeAux (c :: seen) cs
    else if c.isDigit ∨ c = '+' ∨ c = '-' ∨ c = '.' then
      if seen = [] then .ok ([], c :: cs)
      else goGetSchemeAux (c :: seen) cs
    else if c = ':' then
      if seen = [] then .error "missing protocol scheme"
      else .ok (seen.reverse.map Char.toLower, cs)
    else .ok ([], seen.reverse ++ c :: cs)

/-- Authority → host: the part after the last `@` (userinfo split). -/
def hostOfAuthority (authority : List Char) : List Char :=
  ((authority.reverse.takeWhile (fun c => ¬ c = '@')).reverse)

/-- Model of Go `net/url.Parse` restricted to the scheme/host fragment
used by `validateRequest`. -/
def urlParse (s : String) : Except String GoURL :=
  match goGetSchemeAux [] s.data with
  | .error e => .error e
  | .ok (schemeChars, rest) =>
    if rest.take 2 = ['/', '/'] then
      let afterSlashes := rest.drop 2
      let authority := afterSlashes.takeWhile (fun c => ¬ (c = '/' ∨ c = '?' ∨ c = '#'))
      .ok { scheme := String.mk schemeChars, host := String.mk (hostOfAuthority authority) }
    else
      .ok { scheme := String.mk schemeChars, host := "" }

/-! ### Policy generator (`pkg/lambda/deployer` policy file) -/

/-- Action of a policy statement: Go stores `interface{}`, holding either
a single action string or a list of action strings. -/
inductive ActionValue where
  | one (a : String)
  | many (as : List String)
deriving DecidableEq

/-- Statement of a policy document.  `principal` and `condition` model the
Go `map[string]interface{}` fields as association lists (`condition` maps
a condition operator to a map of condition keys to values); an empty list
models an omitted field. -/
structure Statement where
  effect : String
  principal : List (String × String)
  action : ActionValue
  resource : Option String
  condition : List (String × List (String × String))
deriving DecidableEq

/-- Policy document (`PolicyDocument` in the Go source). -/
structure PolicyDocument where
  version : String
  statement : List Statement
deriving DecidableEq

/-- Trust policy for the Lambda execution role.  The Go function returns
the JSON-marshalled string; marshalling of this fixed structure cannot
fail, so the model returns the document itself. -/
def GenerateLambdaExecutionRoleTrustPolicy : PolicyDocument :=
  { version := "2012-10-17"
    statement := [
      { effect := "Allow"
        principal := [("Service", "lambda.amazonaws.com")]
        action := .one "sts:AssumeRole"
        resource := none
        condition := [] }] }

/-- Permissions policy for the OIDC provisioner Lambda (two Allow
statements: IAM OIDC-provider actions over `*`, CloudWatch Logs actions
over the logs wildcard). -/
def GenerateOIDCProvisionerPermissionsPolicy : PolicyDocument :=
  { version := "2012-10-17"
    statement := [
      { effect := "Allow"
        principal := []
        action := .many ["iam:CreateOpenIDConnectProvider",
                         "iam:GetOpenIDConnectProvider",
                         "iam:ListOpenIDConnectProviders",
                         "iam:TagOpenIDConnectProvider"]
        resource := some "*"
        condition := [] },
      { effect := "Allow"
        principal := []
        action := .many ["logs:CreateLogGroup",
                         "logs:CreateLogStream",
                         "logs:PutLogEvents"]
        resource := some "arn:aws:logs:*:*:*"
        condition := [] }] }

/-- Resource-based invocation policy: fails when either argument is
empty (the two explicit validation checks in the Go source, in source
order); otherwise a single Allow statement granting
`lambda:InvokeFunction` to the supplied principal, conditioned on
`aws:SourceAccount` equaling the supplied account.  Marshalling of the
resulting structure cannot fail, so the success case returns the
document. -/
def GenerateLambdaResourcePolicy (clmServiceRoleARN sourceAccountID : String) :
    Except String PolicyDocument :=
  if clmServiceRoleARN = "" then .error "CLM service role ARN is required"
  else if sourceAccountID = "" then .error "source account ID is required"
  else .ok
    { version := "2012-10-17"
      statement := [
        { effect := "Allow"
          principal := [("AWS", clmServiceRoleARN)]
          action := .one "lambda:InvokeFunction"
          resource := some "*"
          condition := [("StringEquals", [("aws:SourceAccount", sourceAccountID)])] }] }

/-! ### Package builder (`pkg/lambda/deployer` package file) -/

/-- 50 MB Lambda package ceiling (`maxPackageSize`). -/
def maxPackageSize : Nat := 50 * 1024 * 1024

/-- One entry of a ZIP archive, at the level of the Go `archive/zip`
writer API: entry name, file-mode bits recorded in the header, the
compression method (8 = Deflate, 0 = Store) and the entry content. -/
structure ZipEntry where
  name : String
  mode : Nat
  method : Nat
  content : List Nat
deriving DecidableEq

/-- The binary produced by `compileBinary`: base file name, file-mode
bits after the `os.Chmod`, and contents. -/
structure GoFile where
  name : String
  mode : Nat
  content : List Nat
deriving DecidableEq

/-- Model of `PackageBuilder.createZipPackage`: build a header from the
file info of the binary, rename the entry to `bootstrap`, switch the
method to Deflate, set the mode to `0755`, and write the binary contents
as the single entry of the archive. -/
def createZipPackage (binary : GoFile) : List ZipEntry :=
  let header : ZipEntry :=
    { name := binary.name, mode := binary.mode, method := 0, content := [] }
  let header := { header with name := "bootstrap" }
  let header := { header with method := 8 }
  let header := { header with mode := 0o755 }
  [{ header with content := binary.content }]

/-! ### Deployment orchestrator (`pkg/lambda/deployer` deployer file) -/

/-- Result classes of `iam.GetRole`: the `NoSuchEntityException` branch
the code tests with `errors.As`, or any other error. -/
inductive IamGetRoleErr where
  | noSuchEntity
  | other (msg : String)
deriving DecidableEq

/-- Result classes of `lambda.GetFunction`: `ResourceNotFoundException`
or any other error. -/
inductive LambdaGetErr where
  | resourceNotFound
  | other (msg : String)
deriving DecidableEq

/-- Result classes of `lambda.AddPermission`: `ResourceConflictException`
or any other error. -/
inductive AddPermErr where
  | resourceConflict
  | other (msg : String)
deriving DecidableEq

/-- Result classes of `cloudwatchlogs.CreateLogGroup`:
`ResourceAlreadyExistsException` or any other error. -/
inductive CreateLogGroupErr where
  | alreadyExists
  | other (msg : String)
deriving DecidableEq

/-- The part of `lambda.GetFunctionOutput` the deployer reads:
`Configuration.FunctionArn`. -/
structure FunctionConfigurationOut where
  functionArn : String
deriving DecidableEq

/-- Output of `lambda.GetFunction` as used by the deployer. -/
structure GetFunctionOutput where
  configuration : FunctionConfigurationOut
deriving DecidableEq

/-- `DeploymentConfig` (tags as an association list with unique keys). -/
structure DeploymentConfig where
  functionName : String
  executionRoleName : String
  sourceDir : String
  clmServiceRoleARN : String
  sourceAccountID : String
  runtime : String
  memorySize : Int
  timeout : Int
  architecture : String
  tags : List (String × String)
deriving DecidableEq

/-- `DeploymentResult`. -/
structure DeploymentResult where
  functionARN : String
  functionName : String
  executionRole : String
  logGroupName : String
  status : String
  packageSize : Nat
  packageChecksum : String
deriving DecidableEq

/-- One remote (or external) call issued by the embedded code, with the
request fields the source passes that the claims are about. -/
inductive Call where
  | getRole (roleName : String)
  | createRole (roleName : String) (trustPolicy : PolicyDocument)
  | putRolePolicy (roleName policyName : String) (policy : PolicyDocument)
  | getFunction (functionName : String)
  | createFunctionCall (functionName : String) (zipFile : List Nat) (role handler : String)
  | updateFunctionCodeCall (functionName : String) (zipFile : List Nat)
  | updateFunctionConfigurationCall (functionName runtime role handler : String)
      (memorySize timeout : Int)
  | addPermission (functionName statementId action principal sourceArn : String)
  | describeLogGroups (logGroupNamePfx : String)
  | createLogGroup (logGroupName : String)
  | putRetentionPolicy (logGroupName : String) (retentionInDays : Int)
  | tagLogGroup (logGroupName : String) (tags : List (String × String))
  | tagResource (resource : String) (tags : List (String × String))
  | listOpenIDConnectProviders
  | getOpenIDConnectProvider (arn : String)
  | createOpenIDConnectProvider (url : String) (thumbprintList clientIDList : List String)
  | tagOpenIDConnectProvider (arn : String) (tags : List (String × String))
deriving DecidableEq

/-- Environment of one `Deploy` run: the outcome of each external call
the deployer can make.  AWS calls carry their success payload or error
class; `compileResult` is the outcome of the `go build` invocation (the
produced binary bytes), `zipSerialize` is the byte serialization the
`archive/zip` writer produces for an archive, and `sha256Hex` is the
`crypto/sha256` hex digest of a byte string. -/
structure DeployEnv where
  getRole : Except IamGetRoleErr String
  createRole : Except String String
  putRolePolicy : Except String Unit
  compileResult : Except String (List Nat)
  zipSerialize : List ZipEntry → List Nat
  sha256Hex : List Nat → String
  getFunction : Except LambdaGetErr GetFunctionOutput
  createFunction : Except String String
  updateFunctionCode : Except String Unit
  updateFunctionConfiguration : Except String Unit
  addPermission : Except AddPermErr Unit
  describeLogGroups : Except String (List String)
  createLogGroup : Except CreateLogGroupErr Unit
  putRetentionPolicy : Except String Unit
  tagLogGroup : Except String Unit
  tagResource : Except String Unit

/-- Model of `PackageBuilder.Build`: compile the binary (into a file
named `bootstrap` that is then `chmod`-ed to `0755`), package it with
`createZipPackage`, serialize, enforce the size ceiling, and digest the
final archive bytes. -/
def Build (env : DeployEnv) : Except String (List Nat × String) :=
  match env.compileResult with
  | .error e => .error ("failed to compile binary: " ++ e)
  | .ok content =>
    let archive := createZipPackage { name := "bootstrap", mode := 0o755, content := content }
    let zipData := env.zipSerialize archive
    if zipData.length > maxPackageSize then
      .error ("package size " ++ toString zipData.length ++ " bytes exceeds maximum "
        ++ toString maxPackageSize ++ " bytes")
    else
      .ok (zipData, env.sha256Hex zipData)

/-- Model of `Deployer.ensureExecutionRole`: reuse the role when
`GetRole` succeeds; on `NoSuchEntityException` create it with the trust
policy and attach the inline permissions policy; any other lookup error
is fatal. -/
def ensureExecutionRole (cfg : DeploymentConfig) (env : DeployEnv) :
    List Call × Except String String :=
  match env.getRole with
  | .ok arn => ([.getRole cfg.executionRoleName], .ok arn)
  | .error (.other e) =>
    ([.getRole cfg.executionRoleName], .error ("failed to check if role exists: " ++ e))
  | .error .noSuchEntity =>
    let trustPolicy := GenerateLambdaExecutionRoleTrustPolicy
    match env.createRole with
    | .error e =>
      ([.getRole cfg.executionRoleName, .createRole cfg.executionRoleName trustPolicy],
       .error ("failed to create role: " ++ e))
    | .ok roleARN =>
      let permissionsPolicy := GenerateOIDCProvisionerPermissionsPolicy
      match env.putRolePolicy with
      | .error e =>
        ([.getRole cfg.executionRoleName, .createRole cfg.executionRoleName trustPolicy,
          .putRolePolicy cfg.executionRoleName "OIDCProvisionerPermissions" permissionsPolicy],
         .error ("failed to attach permissions policy: " ++ e))
      | .ok _ =>
        ([.getRole cfg.executionRoleName, .createRole cfg.executionRoleName trustPolicy,
          .putRolePolicy cfg.executionRoleName "OIDCProvisionerPermissions" permissionsPolicy],
         .ok roleARN)

/-- Model of `Deployer.checkFunctionExists`: `ResourceNotFoundException`
is the non-error "does not exist" outcome; any other error propagates. -/
def checkFunctionExists (cfg : DeploymentConfig) (env : DeployEnv) :
    List Call × Except String (Option GetFunctionOutput) :=
  ([.getFunction cfg.functionName],
   match env.getFunction with
   | .ok output => .ok (some output)
   | .error .resourceNotFound => .ok none
   | .error (.other e) => .error e)

/-- Model of `Deployer.createFunction`. -/
def createFunction (cfg : DeploymentConfig) (env : DeployEnv)
    (zipData : List Nat) (roleARN : String) : List Call × Except String String :=
  ([.createFunctionCall cfg.functionName zipData roleARN "bootstrap"],
   env.createFunction)

/-- Model of `Deployer.updateFunction`: push new code, then push new
configuration, as two separate calls. -/
def updateFunction (cfg : DeploymentConfig) (env : DeployEnv)
    (zipData : List Nat) (roleARN : String) : List Call × Except String Unit :=
  match env.updateFunctionCode with
  | .error e =>
    ([.updateFunctionCodeCall cfg.functionName zipData],
     .error ("failed to update function code: " ++ e))
  | .ok _ =>
    match env.updateFunctionConfiguration with
    | .error e =>
      ([.updateFunctionCodeCall cfg.functionName zipData,
        .updateFunctionConfigurationCall cfg.functionName cfg.runtime roleARN "bootstrap"
          cfg.memorySize cfg.timeout],
       .error ("failed to update function configuration: " ++ e))
    | .ok _ =>
      ([.updateFunctionCodeCall cfg.functionName zipData,
        .updateFunctionConfigurationCall cfg.functionName cfg.runtime roleARN "bootstrap"
          cfg.memorySize cfg.timeout],
       .ok ())

/-- Model of `Deployer.addResourcePolicy`: generate the resource policy
(fails on empty inputs), then register the permission grant with the
fixed statement id, the invoke action, the source-account root
principal and the invoker-role ARN as source ARN; a
`ResourceConflictException` is treated as success.  The generated policy
document is bound but not passed to the call (the `_ = policy` line in
the source). -/
def addResourcePolicy (cfg : DeploymentConfig) (env : DeployEnv) :
    List Call × Except String Unit :=
  match GenerateLambdaResourcePolicy cfg.clmServiceRoleARN cfg.sourceAccountID with
  | .error e => ([], .error e)
  | .ok _policy =>
    ([.addPermission cfg.functionName "AllowCLMInvoke" "lambda:InvokeFunction"
        ("arn:aws:iam::" ++ cfg.sourceAccountID ++ ":root") cfg.clmServiceRoleARN],
     match env.addPermission with
     | .ok _ => .ok ()
     | .error .resourceConflict => .ok ()
     | .error (.other e) => .error e)

/-- Create-onward part of `ensureLogGroup` (after the existence check
found no exact match): create the log group tolerating
`ResourceAlreadyExistsException`, set the 90-day retention policy, and
tag the group when tags are configured (tagging failure is only
warned). -/
def ensureLogGroupCreate (cfg : DeploymentConfig) (env : DeployEnv)
    (logGroupName : String) : List Call × Except String Unit :=
  match env.createLogGroup with
  | .error (.other e) =>
    ([.createLogGroup logGroupName], .error ("failed to create log group: " ++ e))
  | _ =>
    match env.putRetentionPolicy with
    | .error e =>
      ([.createLogGroup logGroupName, .putRetentionPolicy logGroupName 90],
       .error ("failed to set retention policy: " ++ e))
    | .ok _ =>
      if cfg.tags ≠ [] then
        ([.createLogGroup logGroupName, .putRetentionPolicy logGroupName 90,
          .tagLogGroup logGroupName cfg.tags], .ok ())
      else
        ([.createLogGroup logGroupName, .putRetentionPolicy logGroupName 90], .ok ())

/-- Model of `Deployer.ensureLogGroup`: list log groups by name prefix;
when the listing succeeds and contains an exact name match, return
immediately; otherwise continue with creation, retention and tagging (a
listing error is swallowed and creation proceeds). -/
def ensureLogGroup (cfg : DeploymentConfig) (env : DeployEnv)
    (logGroupName : String) : List Call × Except String Unit :=
  let rest := ensureLogGroupCreate cfg env logGroupName
  match env.describeLogGroups with
  | .ok lgs =>
    if logGroupName ∈ lgs then ([.describeLogGroups logGroupName], .ok ())
    else (.describeLogGroups logGroupName :: rest.1, rest.2)
  | .error _ => (.describeLogGroups logGroupName :: rest.1, rest.2)

/-- Model of `Deployer.tagFunction`. -/
def tagFunction (cfg : DeploymentConfig) (env : DeployEnv)
    (functionARN : String) : List Call × Except String Unit :=
  ([.tagResource functionARN cfg.tags], env.tagResource)

/-- Model of `Deployer.Deploy`: the seven-step orchestration.  Steps 1-4
(role, package, existence check, create-or-update) propagate their
errors with a step-identifying message; the invocation-policy, log-group
and function-tagging steps only warn on failure and the run still
returns a complete `DeploymentResult`. -/
def Deploy (cfg : DeploymentConfig) (env : DeployEnv) :
    List Call × Except String DeploymentResult :=
  let t1 := (ensureExecutionRole cfg env).1
  match (ensureExecutionRole cfg env).2 with
  | .error e => (t1, .error ("failed to ensure execution role: " ++ e))
  | .ok roleARN =>
    match Build env with
    | .error e => (t1, .error ("failed to build Lambda package: " ++ e))
    | .ok (zipData, checksum) =>
      let t3 := (checkFunctionExists cfg env).1
      match (checkFunctionExists cfg env).2 with
      | .error e => (t1 ++ t3, .error ("failed to check if function exists: " ++ e))
      | .ok funcOpt =>
        let step4 : List Call × Except String (String × String) :=
          match funcOpt with
          | some existingFunc =>
            let t4 := (updateFunction cfg env zipData roleARN).1
            match (updateFunction cfg env zipData roleARN).2 with
            | .error e => (t4, .error ("failed to update function: " ++ e))
            | .ok _ => (t4, .ok (existingFunc.configuration.functionArn, "updated"))
          | none =>
            let t4 := (createFunction cfg env zipData roleARN).1
            match (createFunction cfg env zipData roleARN).2 with
            | .error e => (t4, .error ("failed to create function: " ++ e))
            | .ok newARN => (t4, .ok (newARN, "created"))
        match step4 with
        | (t4, .error e) => (t1 ++ t3 ++ t4, .error e)
        | (t4, .ok (functionARN, status)) =>
          let t5 :=
            if cfg.clmServiceRoleARN ≠ "" ∧ cfg.sourceAccountID ≠ "" then
              (addResourcePolicy cfg env).1
            else []
          let logGroupName := "/aws/lambda/" ++ cfg.functionName
          let t6 := (ensureLogGroup cfg env logGroupName).1
          let t7 := if cfg.tags ≠ [] then (tagFunction cfg env functionARN).1 else []
          (t1 ++ t3 ++ t4 ++ t5 ++ t6 ++ t7,
           .ok { functionARN := functionARN
                 functionName := cfg.functionName
                 executionRole := roleARN
                 logGroupName := logGroupName
                 status := status
                 packageSize := zipData.length
                 packageChecksum := checksum })

/-! ### OIDC provisioner handler
(`pkg/lambda/functions/oidc-provisioner/handler.go`) -/

/-- Constants of the handler source. -/
def statusCreated : String := "created"

def statusAlreadyExists : String := "already_exists"

def tagComponentKey : String := "rosa:component"

def tagComponentValue : String := "oidc-provider"

def tagClusterKey : String := "rosa:cluster-id"

/-- `OIDCProvisionerRequest` (types file of the handler package). -/
structure OIDCProvisionerRequest where
  issuerURL : String
  thumbprint : String
  clusterID : String
  clientIDs : List String
deriving DecidableEq

/-- `OIDCProvisionerResponse`. -/
structure OIDCProvisionerResponse where
  oidcProviderARN : String
  status : String
  message : String
deriving DecidableEq

/-- One entry of `iam.ListOpenIDConnectProvidersOutput`. -/
structure ProviderListEntry where
  arn : String
deriving DecidableEq

/-- The part of `iam.GetOpenIDConnectProviderOutput` the handler reads:
the stored URL (`nil` modelled as `none`). -/
structure GetOIDCProviderOutput where
  url : Option String
deriving DecidableEq

/-- Environment of one `Handle` run: outcomes of the IAM OIDC calls.
`getOpenIDConnectProvider` is per-ARN because the handler calls it once
per listed provider. -/
structure HandlerEnv where
  listOpenIDConnectProviders : Except String (List ProviderListEntry)
  getOpenIDConnectProvider : String → Except String GetOIDCProviderOutput
  createOpenIDConnectProvider : Except String String
  tagOpenIDConnectProvider : Except String Unit

/-- Model of `Handler.validateRequest`: the six checks, in source order;
`none` means the request is valid, `some msg` is the error text of the
first violated rule. -/
def validateRequest (req : OIDCProvisionerRequest) : Option String :=
  if req.issuerURL = "" then some "issuer_url is required"
  else
    match urlParse req.issuerURL with
    | .error e => some ("invalid issuer_url: " ++ e)
    | .ok parsedURL =>
      if parsedURL.scheme ≠ "https" then some "issuer_url must use https scheme"
      else if parsedURL.host = "" then some "issuer_url must have a valid host"
      else if req.thumbprint = "" then some "thumbprint is required"
      else if req.clusterID = "" then some "cluster_id is required"
      else none

/-- Scan loop of `checkProviderExists`: for each listed provider fetch
its detail record (a fetch error skips the candidate), and return the
first provider whose stored URL, trailing-slash-stripped, equals the
normalized issuer URL. -/
def scanProviders (env : HandlerEnv) (normalizedIssuerURL : String) :
    List ProviderListEntry → List Call × Option String
  | [] => ([], none)
  | p :: rest =>
    match env.getOpenIDConnectProvider p.arn with
    | .error _ =>
      let r := scanProviders env normalizedIssuerURL rest
      (.getOpenIDConnectProvider p.arn :: r.1, r.2)
    | .ok getOutput =>
      match getOutput.url with
      | some u =>
        if trimSuffixSlash u = normalizedIssuerURL then
          ([.getOpenIDConnectProvider p.arn], some p.arn)
        else
          let r := scanProviders env normalizedIssuerURL rest
          (.getOpenIDConnectProvider p.arn :: r.1, r.2)
      | none =>
        let r := scanProviders env normalizedIssuerURL rest
        (.getOpenIDConnectProvider p.arn :: r.1, r.2)

/-- Model of `Handler.checkProviderExists`: normalize the argument once
more (the handler already passes a stripped URL), list all providers (a
listing error is fatal), and scan them. -/
def checkProviderExists (env : HandlerEnv) (issuerURL : String) :
    List Call × Except String (String × Bool) :=
  let normalizedIssuerURL := trimSuffixSlash issuerURL
  match env.listOpenIDConnectProviders with
  | .error e => ([.listOpenIDConnectProviders], .error e)
  | .ok providerList =>
    let r := scanProviders env normalizedIssuerURL providerList
    (.listOpenIDConnectProviders :: r.1,
     match r.2 with
     | some arn => .ok (arn, true)
     | none => .ok ("", false))

/-- Model of `Handler.createProvider`: create the provider with the
once-stripped request issuer URL, the single-element thumbprint list,
and caller-supplied client IDs or the two ROSA defaults. -/
def createProvider (env : HandlerEnv) (req : OIDCProvisionerRequest) :
    List Call × Except String String :=
  let url := trimSuffixSlash req.issuerURL
  let clientIDList :=
    if req.clientIDs ≠ [] then req.clientIDs
    else ["openshift", "sts.amazonaws.com"]
  ([.createOpenIDConnectProvider url [req.thumbprint] clientIDList],
   env.createOpenIDConnectProvider)

/-- Model of `Handler.tagProvider`: the component tag, plus the cluster
tag when a cluster id is present. -/
def tagProvider (env : HandlerEnv) (providerARN clusterID : String) :
    List Call × Except String Unit :=
  let tags :=
    [(tagComponentKey, tagComponentValue)] ++
    (if clusterID ≠ "" then [(tagClusterKey, clusterID)] else [])
  ([.tagOpenIDConnectProvider providerARN tags], env.tagOpenIDConnectProvider)

/-- Model of `Handler.Handle`: validate, strip one trailing separator,
search for an existing provider, then either re-tag the existing
provider (tagging failure fatal) and answer `already_exists`, or create
a new provider (creation failure fatal), tag it (tagging failure only
warned) and answer `created`. -/
def Handle (env : HandlerEnv) (req : OIDCProvisionerRequest) :
    List Call × Except String OIDCProvisionerResponse :=
  match validateRequest req with
  | some e => ([], .error ("invalid request: " ++ e))
  | none =>
    let issuerURL := trimSuffixSlash req.issuerURL
    let t1 := (checkProviderExists env issuerURL).1
    match (checkProviderExists env issuerURL).2 with
    | .error e => (t1, .error ("failed to check if provider exists: " ++ e))
    | .ok (providerARN, true) =>
      let t2 := (tagProvider env providerARN req.clusterID).1
      match (tagProvider env providerARN req.clusterID).2 with
      | .error e => (t1 ++ t2, .error ("failed to tag existing provider: " ++ e))
      | .ok _ =>
        (t1 ++ t2,
         .ok { oidcProviderARN := providerARN
               status := statusAlreadyExists
               message := "OIDC provider already exists" })
    | .ok (_, false) =>
      let t2 := (createProvider env req).1
      match (createProvider env req).2 with
      | .error e => (t1 ++ t2, .error ("failed to create OIDC provider: " ++ e))
      | .ok providerARN =>
        let t3 := (tagProvider env providerARN req.clusterID).1
        (t1 ++ t2 ++ t3,
         .ok { oidcProviderARN := providerARN
               status := statusCreated
               message := "OIDC provider created successfully" })

/-! ### Concrete fixtures used by witnesses and counterexamples -/

/-- A representative deployment configuration. -/
def cfgBase : DeploymentConfig :=
  { functionName := "rosa-oidc-provisioner"
    executionRoleName := "rosa-oidc-provisioner-role"
    sourceDir := "./pkg/lambda/functions/oidc-provisioner"
    clmServiceRoleARN := "arn:aws:iam::123456789012:role/clm-service-role"
    sourceAccountID := "123456789012"
    runtime := "provided.al2"
    memorySize := 128
    timeout := 30
    architecture := "x86_64"
    tags := [("rosa:component", "oidc-provisioner")] }

/-- A deployment environment in which every external call succeeds and
no function pre-exists. -/
def envBase : DeployEnv :=
  { getRole := .ok "arn:aws:iam::123456789012:role/rosa-oidc-provisioner-role"
    createRole := .ok "arn:aws:iam::123456789012:role/rosa-oidc-provisioner-role"
    putRolePolicy := .ok ()
    compileResult := .ok [1, 2, 3]
    zipSerialize := fun archive => (archive.map ZipEntry.content).flatten
    sha256Hex := fun _ => "0bee89b07a248e27c83fc3d5951213c1b7447f8d9a2e7d5f2f2f8f3b1e6f7a10"
    getFunction := .error .resourceNotFound
    createFunction := .ok "arn:aws:lambda:us-east-1:123456789012:function:rosa-oidc-provisioner"
    updateFunctionCode := .ok ()
    updateFunctionConfiguration := .ok ()
    addPermission := .ok ()
    describeLogGroups := .ok []
    createLogGroup := .ok ()
    putRetentionPolicy := .ok ()
    tagLogGroup := .ok ()
    tagResource := .ok () }

/-- A handler environment with one stored provider whose URL ends in two
separators, everything succeeding. -/
def envStoredDoubleSlash : HandlerEnv :=
  { listOpenIDConnectProviders := .ok [{ arn := "arn:aws:iam::123456789012:oidc-provider/example.com" }]
    getOpenIDConnectProvider := fun _ => .ok { url := some "https://example.com//" }
    createOpenIDConnectProvider := .ok "arn:new-provider"
    tagOpenIDConnectProvider := .ok () }

/-- A handler environment with one stored provider whose URL has no
trailing separator, everything succeeding. -/
def envStoredPlain : HandlerEnv :=
  { listOpenIDConnectProviders := .ok [{ arn := "arn:aws:iam::123456789012:oidc-provider/example.com" }]
    getOpenIDConnectProvider := fun _ => .ok { url := some "https://example.com" }
    createOpenIDConnectProvider := .ok "arn:new-provider"
    tagOpenIDConnectProvider := .ok () }

/-- A deployment environment in which the log group already exists (the
listing returns an exact name match) and everything else succeeds. -/
def envLogGroupExists : DeployEnv :=
  { envBase with describeLogGroups := .ok ["/aws/lambda/rosa-oidc-provisioner"] }

/-- A request whose issuer URL is absolute and secure but has an empty
host. -/
def reqHostless : OIDCProvisionerRequest :=
  { issuerURL := "https:", thumbprint := "abc123", clusterID := "test-cluster", clientIDs := [] }

/-- A fully valid provisioner request. -/
def reqValid : OIDCProvisionerRequest :=
  { issuerURL := "https://example.com", thumbprint := "abc123"
    clusterID := "test-cluster", clientIDs := [] }

/-- A valid request whose issuer URL ends in one separator. -/
def reqSingleSlash : OIDCProvisionerRequest :=
  { reqValid with issuerURL := "https://example.com/" }

/-- A valid request whose issuer URL ends in two separators. -/
def reqDoubleSlash : OIDCProvisionerRequest :=
  { reqValid with issuerURL := "https://example.com//" }

/-- `envStoredPlain` with a failing tag call. -/
def envTagFails : HandlerEnv :=
  { envStoredPlain with tagOpenIDConnectProvider := .error "tag denied" }

/-- Step-1-to-4 success predicate for a `Deploy` run: the execution-role
step, the package build and the existence check succeed, and the
create-or-update step that the existence check selects succeeds. -/
def createOrUpdateOk (env : DeployEnv) : Prop :=
  match env.getFunction with
  | .ok _ => env.updateFunctionCode = .ok () ∧ env.updateFunctionConfiguration = .ok ()
  | .error _ => ∃ a, env.createFunction = .ok a

/-- All four fatal steps of `Deploy` succeed. -/
def fatalStepsOk (cfg : DeploymentConfig) (env : DeployEnv) : Prop :=
  (∃ a, (ensureExecutionRole cfg env).2 = .ok a) ∧
  (∃ z, Build env = .ok z) ∧
  (∃ o, (checkFunctionExists cfg env).2 = .ok o) ∧
  createOrUpdateOk env

/-! ### Supporting lemmas -/

theorem trimSuffixSlash_append_slash (s : String) :
    trimSuffixSlash (s ++ "/") = s := by
  cases s with
  | mk l =>
    have h : (String.mk l ++ "/") = String.mk (l ++ ['/']) := rfl
    rw [h]
    unfold trimSuffixSlash
    simp

theorem trimSuffixSlash_of_no_slash (s : String)
    (h : s.data.getLast? ≠ some '/') : trimSuffixSlash s = s := by
  unfold trimSuffixSlash
  rw [if_neg h]

/-! ### Claim theorems -/

/-- C7: for every string `x`, `GenerateLambdaResourcePolicy "" x` and
`GenerateLambdaResourcePolicy x ""` fail with a validation error, and
for all non-empty arguments the generator succeeds with a one-statement
Allow document whose condition maps `aws:SourceAccount` to exactly the
supplied source-account value. -/
theorem resourcePolicy_validation_and_condition (x : String) :
    GenerateLambdaResourcePolicy "" x = .error "CLM service role ARN is required" ∧
    (∃ e, GenerateLambdaResourcePolicy x "" = .error e) ∧
    (∀ a b : String, a ≠ "" → b ≠ "" →
      ∃ doc, GenerateLambdaResourcePolicy a b = .ok doc ∧
        doc.statement.length = 1 ∧
        ∀ st ∈ doc.statement, st.effect = "Allow" ∧
          st.condition = [("StringEquals", [("aws:SourceAccount", b)])]) := by
  refine ⟨by simp [GenerateLambdaResourcePolicy], ?_, ?_⟩
  · by_cases hx : x = ""
    · exact ⟨"CLM service role ARN is required", by simp [GenerateLambdaResourcePolicy, hx]⟩
    · exact ⟨"source account ID is required", by simp [GenerateLambdaResourcePolicy, hx]⟩
  · intro a b ha hb
    unfold GenerateLambdaResourcePolicy
    rw [if_neg ha, if_neg hb]
    refine ⟨_, rfl, by simp, ?_⟩
    intro st hst
    simp at hst
    subst hst
    exact ⟨rfl, rfl⟩

/-- Witness for C7 at concrete inputs. -/
theorem resourcePolicy_validation_and_condition_witness :
    ("arn:aws:iam::123456789012:role/clm" ≠ "" ∧ "123456789012" ≠ "") ∧
    (GenerateLambdaResourcePolicy "" "x" = .error "CLM service role ARN is required" ∧
     (∃ e, GenerateLambdaResourcePolicy "x" "" = .error e) ∧
     (∀ a b : String, a ≠ "" → b ≠ "" →
       ∃ doc, GenerateLambdaResourcePolicy a b = .ok doc ∧
         doc.statement.length = 1 ∧
         ∀ st ∈ doc.statement, st.effect = "Allow" ∧
           st.condition = [("StringEquals", [("aws:SourceAccount", b)])])) :=
  ⟨⟨by decide, by decide⟩, resourcePolicy_validation_and_condition "x"⟩

/-- C8: every successful `Build` produced its archive bytes by
serializing the archive `createZipPackage` wrote, and that archive
contains exactly one entry, named `bootstrap`, with file-mode bits
`0755` in its header. -/
theorem build_archive_single_bootstrap_entry (env : DeployEnv)
    (zipData : List Nat) (checksum : String)
    (h : Build env = .ok (zipData, checksum)) :
    ∃ content, env.compileResult = .ok content ∧
      zipData = env.zipSerialize
        (createZipPackage { name := "bootstrap", mode := 0o755, content := content }) ∧
      ∃ entry, createZipPackage { name := "bootstrap", mode := 0o755, content := content }
          = [entry] ∧
        entry.name = "bootstrap" ∧ entry.mode = 0o755 := by
  unfold Build at h
  cases hc : env.compileResult with
  | error e => rw [hc] at h; exact absurd h (by simp)
  | ok content =>
    rw [hc] at h
    simp only at h
    split at h
    · exact absurd h (by simp)
    · refine ⟨content, rfl, ?_, ?_⟩
      · cases h; rfl
      · exact ⟨_, rfl, rfl, rfl⟩

/-- Witness for C8: `Build` on the all-success environment. -/
theorem build_archive_single_bootstrap_entry_witness :
    (Build envBase = .ok ([1, 2, 3],
      "0bee89b07a248e27c83fc3d5951213c1b7447f8d9a2e7d5f2f2f8f3b1e6f7a10")) ∧
    (∃ content, envBase.compileResult = .ok content ∧
      [1, 2, 3] = envBase.zipSerialize
        (createZipPackage { name := "bootstrap", mode := 0o755, content := content }) ∧
      ∃ entry, createZipPackage { name := "bootstrap", mode := 0o755, content := content }
          = [entry] ∧
        entry.name = "bootstrap" ∧ entry.mode = 0o755) :=
  ⟨by rfl, build_archive_single_bootstrap_entry envBase _ _ (by rfl)⟩

/-- C10: when both invocation-policy inputs are configured, the
permission grant registered by `addResourcePolicy` is the single
`AddPermission` call with the fixed statement id `AllowCLMInvoke`, the
invoke action, the source-account root principal and the invoker-role
ARN as source ARN — a value determined by the configuration alone, into
which the generated policy document does not enter. -/
theorem addResourcePolicy_fixed_grant (cfg : DeploymentConfig) (env : DeployEnv)
    (h1 : cfg.clmServiceRoleARN ≠ "") (h2 : cfg.sourceAccountID ≠ "") :
    (addResourcePolicy cfg env).1 =
      [Call.addPermission cfg.functionName "AllowCLMInvoke" "lambda:InvokeFunction"
        ("arn:aws:iam::" ++ cfg.sourceAccountID ++ ":root") cfg.clmServiceRoleARN] := by
  unfold addResourcePolicy GenerateLambdaResourcePolicy
  rw [if_neg h1, if_neg h2]

/-- Witness for C10 on the base fixtures. -/
theorem addResourcePolicy_fixed_grant_witness :
    (cfgBase.clmServiceRoleARN ≠ "" ∧ cfgBase.sourceAccountID ≠ "") ∧
    (addResourcePolicy cfgBase envBase).1 =
      [Call.addPermission cfgBase.functionName "AllowCLMInvoke" "lambda:InvokeFunction"
        ("arn:aws:iam::" ++ cfgBase.sourceAccountID ++ ":root") cfgBase.clmServiceRoleARN] :=
  ⟨⟨by decide, by decide⟩,
   addResourcePolicy_fixed_grant cfgBase envBase (by decide) (by decide)⟩

/-- C4 counterexample: when the listing finds an exact name match (the
log group already existed), `ensureLogGroup` returns immediately after
the existence check — the 90-day retention policy is not set and the
configured tags are not applied, contradicting the claim that both
happen on every execution including when the log group already
existed. -/
theorem ensureLogGroup_existing_skips_retention_cex :
    envLogGroupExists.describeLogGroups = .ok ["/aws/lambda/rosa-oidc-provisioner"] ∧
    ensureLogGroup cfgBase envLogGroupExists "/aws/lambda/rosa-oidc-provisioner" =
      ([Call.describeLogGroups "/aws/lambda/rosa-oidc-provisioner"], .ok ()) ∧
    Call.putRetentionPolicy "/aws/lambda/rosa-oidc-provisioner" 90 ∉
      (ensureLogGroup cfgBase envLogGroupExists "/aws/lambda/rosa-oidc-provisioner").1 ∧
    cfgBase.tags ≠ [] ∧
    Call.tagLogGroup "/aws/lambda/rosa-oidc-provisioner" cfgBase.tags ∉
      (ensureLogGroup cfgBase envLogGroupExists "/aws/lambda/rosa-oidc-provisioner").1 :=
  ⟨rfl, rfl, by decide, by decide, by decide⟩

/-- C4 amended: after the existence check, retention and tags are
applied exactly on the executions that attempt creation — when the
listing found no exact name match (including when creation itself fails
with "already exists") — while an exact name match makes the step
return immediately after the check, with no retention or tag call. -/
theorem ensureLogGroup_retention_tags_on_create_path (cfg : DeploymentConfig)
    (env : DeployEnv) (lgName : String) :
    (∀ lgs, env.describeLogGroups = .ok lgs → lgName ∈ lgs →
      ensureLogGroup cfg env lgName = ([.describeLogGroups lgName], .ok ())) ∧
    ((∀ lgs, env.describeLogGroups = .ok lgs → lgName ∉ lgs) →
     (env.createLogGroup = .ok () ∨ env.createLogGroup = .error .alreadyExists) →
     env.putRetentionPolicy = .ok () →
       Call.putRetentionPolicy lgName 90 ∈ (ensureLogGroup cfg env lgName).1 ∧
       (cfg.tags ≠ [] → Call.tagLogGroup lgName cfg.tags ∈ (ensureLogGroup cfg env lgName).1) ∧
       (ensureLogGroup cfg env lgName).2 = .ok ()) := by
  constructor
  · intro lgs hd hm
    unfold ensureLogGroup
    rw [hd]
    simp [hm]
  · intro hnm hcreate hret
    have hrest : Call.putRetentionPolicy lgName 90 ∈ (ensureLogGroupCreate cfg env lgName).1 ∧
        (cfg.tags ≠ [] →
          Call.tagLogGroup lgName cfg.tags ∈ (ensureLogGroupCreate cfg env lgName).1) ∧
        (ensureLogGroupCreate cfg env lgName).2 = .ok () := by
      unfold ensureLogGroupCreate
      rcases hcreate with hc | hc <;> rw [hc] <;> rw [hret] <;>
        by_cases ht : cfg.tags = [] <;> simp [ht]
    rcases hrest with ⟨hr1, hr2, hr3⟩
    cases hd : env.describeLogGroups with
    | ok lgs =>
      have hne := hnm lgs hd
      simp only [ensureLogGroup, hd]
      rw [if_neg hne]
      exact ⟨by simp [hr1], fun ht => by simp [hr2 ht], hr3⟩
    | error e =>
      simp only [ensureLogGroup, hd]
      exact ⟨by simp [hr1], fun ht => by simp [hr2 ht], hr3⟩

/-- Witness for C4's amended theorem: no pre-existing log group, all
calls succeed, tags configured. -/
theorem ensureLogGroup_retention_tags_on_create_path_witness :
    envBase.describeLogGroups = .ok [] ∧
    envBase.createLogGroup = .ok () ∧
    envBase.putRetentionPolicy = .ok () ∧
    (Call.putRetentionPolicy "/aws/lambda/fn" 90 ∈ (ensureLogGroup cfgBase envBase "/aws/lambda/fn").1 ∧
     (cfgBase.tags ≠ [] →
       Call.tagLogGroup "/aws/lambda/fn" cfgBase.tags ∈ (ensureLogGroup cfgBase envBase "/aws/lambda/fn").1) ∧
     (ensureLogGroup cfgBase envBase "/aws/lambda/fn").2 = .ok ()) :=
  ⟨rfl, rfl, rfl,
   (ensureLogGroup_retention_tags_on_create_path cfgBase envBase "/aws/lambda/fn").2
     (by intro lgs h; injection h with h'; subst h'; simp)
     (Or.inl rfl) rfl⟩

/-- C6 counterexample: the request with issuer URL `https:` violates
none of the claim's five rules — the issuer URL is non-empty, parses as
an absolute URL with the secure scheme, and thumbprint and cluster id
are non-empty — yet validation rejects it (empty host), so "a request
violating none of these passes validation" is false. -/
theorem validateRequest_hostless_cex :
    reqHostless.issuerURL ≠ "" ∧
    urlParse reqHostless.issuerURL = .ok { scheme := "https", host := "" } ∧
    reqHostless.thumbprint ≠ "" ∧
    reqHostless.clusterID ≠ "" ∧
    validateRequest reqHostless = some "issuer_url must have a valid host" :=
  ⟨by decide, by rfl, by decide, by decide, by rfl⟩

/-- C6 amended: validation checks, in source order: missing issuer URL,
unparsable issuer URL, non-`https` scheme, empty host, missing
thumbprint, missing cluster identifier; each failure reports the first
violated rule and a request violating none of them passes. -/
theorem validateRequest_rule_order (req : OIDCProvisionerRequest) :
    (req.issuerURL = "" → validateRequest req = some "issuer_url is required") ∧
    (req.issuerURL ≠ "" → ∀ e, urlParse req.issuerURL = .error e →
      validateRequest req = some ("invalid issuer_url: " ++ e)) ∧
    (∀ u, req.issuerURL ≠ "" → urlParse req.issuerURL = .ok u → u.scheme ≠ "https" →
      validateRequest req = some "issuer_url must use https scheme") ∧
    (∀ u, req.issuerURL ≠ "" → urlParse req.issuerURL = .ok u → u.scheme = "https" →
      u.host = "" → validateRequest req = some "issuer_url must have a valid host") ∧
    (∀ u, req.issuerURL ≠ "" → urlParse req.issuerURL = .ok u → u.scheme = "https" →
      u.host ≠ "" → req.thumbprint = "" → validateRequest req = some "thumbprint is required") ∧
    (∀ u, req.issuerURL ≠ "" → urlParse req.issuerURL = .ok u → u.scheme = "https" →
      u.host ≠ "" → req.thumbprint ≠ "" → req.clusterID = "" →
      validateRequest req = some "cluster_id is required") ∧
    (∀ u, req.issuerURL ≠ "" → urlParse req.issuerURL = .ok u → u.scheme = "https" →
      u.host ≠ "" → req.thumbprint ≠ "" → req.clusterID ≠ "" →
      validateRequest req = none) := by
  refine ⟨?_, ?_, ?_, ?_, ?_, ?_, ?_⟩
  · intro h; simp [validateRequest, h]
  · intro h e he; simp [validateRequest, h, he]
  · intro u h hu hs; simp [validateRequest, h, hu, hs]
  · intro u h hu hs hh; simp [validateRequest, h, hu, hs, hh]
  · intro u h hu hs hh ht; simp [validateRequest, h, hu, hs, hh, ht]
  · intro u h hu hs hh ht hc; simp [validateRequest, h, hu, hs, hh, ht, hc]
  · intro u h hu hs hh ht hc; simp [validateRequest, h, hu, hs, hh, ht, hc]

/-- Witness for C6's amended theorem: a fully valid request passes. -/
theorem validateRequest_rule_order_witness :
    urlParse reqValid.issuerURL = .ok { scheme := "https", host := "example.com" } ∧
    reqValid.issuerURL ≠ "" ∧ reqValid.thumbprint ≠ "" ∧ reqValid.clusterID ≠ "" ∧
    validateRequest reqValid = none :=
  ⟨by rfl, by decide, by decide, by decide,
   (validateRequest_rule_order reqValid).2.2.2.2.2.2
     { scheme := "https", host := "example.com" }
     (by decide) (by rfl) (by decide) (by decide) (by decide) (by decide)⟩

/-- Helper: with a single stored provider whose detail fetch succeeds,
`Handle` on a valid request answers `already_exists` (with the stored
provider's ARN and no creation call) as soon as the stored URL,
stripped once, equals the request issuer URL stripped twice. -/
theorem handle_single_provider_match (env : HandlerEnv)
    (req : OIDCProvisionerRequest) (u : String) (p : ProviderListEntry)
    (hv : validateRequest req = none)
    (hl : env.listOpenIDConnectProviders = .ok [p])
    (hg : env.getOpenIDConnectProvider p.arn = .ok { url := some u })
    (ht : env.tagOpenIDConnectProvider = .ok ())
    (hkey : trimSuffixSlash u = trimSuffixSlash (trimSuffixSlash req.issuerURL)) :
    Handle env req =
      ([Call.listOpenIDConnectProviders, Call.getOpenIDConnectProvider p.arn,
        Call.tagOpenIDConnectProvider p.arn
          ([(tagComponentKey, tagComponentValue)] ++
            (if req.clusterID ≠ "" then [(tagClusterKey, req.clusterID)] else []))],
       .ok ⟨p.arn, statusAlreadyExists, "OIDC provider already exists"⟩) := by
  simp only [Handle, hv, checkProviderExists, hl, scanProviders, hg, if_pos hkey,
    tagProvider, ht]
  rfl

/-- C5: a tagging failure is fatal exactly when the provider already
existed: on the already-exists path `Handle` returns the tagging error
and no response, while on the just-created path the tagging error is
swallowed and `Handle` still answers `created` with the new provider's
identifier. -/
theorem handle_tagging_fatality_asymmetry (env : HandlerEnv)
    (req : OIDCProvisionerRequest) (e : String)
    (hv : validateRequest req = none)
    (htag : env.tagOpenIDConnectProvider = .error e) :
    (∀ arn, (checkProviderExists env (trimSuffixSlash req.issuerURL)).2 = .ok (arn, true) →
      (Handle env req).2 = .error ("failed to tag existing provider: " ++ e)) ∧
    (∀ newARN, (checkProviderExists env (trimSuffixSlash req.issuerURL)).2 = .ok ("", false) →
      env.createOpenIDConnectProvider = .ok newARN →
      (Handle env req).2 = .ok ⟨newARN, statusCreated, "OIDC provider created successfully"⟩) := by
  constructor
  · intro arn hchk
    simp only [Handle, hv, hchk, tagProvider, htag]
  · intro newARN hchk hcr
    simp only [Handle, hv, hchk, createProvider, hcr, tagProvider, htag]

/-- Witness for C5: the already-exists branch at a concrete request and
environment whose tag call fails. -/
theorem handle_tagging_fatality_asymmetry_witness :
    validateRequest reqValid = none ∧
    envTagFails.tagOpenIDConnectProvider = .error "tag denied" ∧
    (checkProviderExists envTagFails (trimSuffixSlash reqValid.issuerURL)).2 =
      .ok ("arn:aws:iam::123456789012:oidc-provider/example.com", true) ∧
    (Handle envTagFails reqValid).2 = .error "failed to tag existing provider: tag denied" :=
  ⟨by rfl, rfl, by rfl,
   (handle_tagging_fatality_asymmetry envTagFails reqValid "tag denied" (by rfl) rfl).1
     "arn:aws:iam::123456789012:oidc-provider/example.com" (by rfl)⟩

/-- C3 counterexample: the stored URL `https://example.com//` differs
from the request issuer URL `https://example.com/` by exactly one
trailing separator (stored = request + `/`), yet `Handle` does not find
the match: it answers `created` and calls the provider-creation
operation. -/
theorem handle_trailing_separator_cex :
    "https://example.com//" = reqSingleSlash.issuerURL ++ "/" ∧
    envStoredDoubleSlash.listOpenIDConnectProviders =
      .ok [{ arn := "arn:aws:iam::123456789012:oidc-provider/example.com" }] ∧
    envStoredDoubleSlash.getOpenIDConnectProvider
      "arn:aws:iam::123456789012:oidc-provider/example.com" =
      .ok { url := some "https://example.com//" } ∧
    (Handle envStoredDoubleSlash reqSingleSlash).2 =
      .ok ⟨"arn:new-provider", statusCreated, "OIDC provider created successfully"⟩ ∧
    Call.createOpenIDConnectProvider "https://example.com" ["abc123"]
      ["openshift", "sts.amazonaws.com"] ∈ (Handle envStoredDoubleSlash reqSingleSlash).1 :=
  ⟨by decide, rfl, rfl, by rfl, by decide⟩

/-- C3 amended: the search finds the match and `Handle` answers
`already_exists` with the stored provider's identifier, without calling
provider creation, whenever the request issuer URL is the stored URL
plus one trailing separator; in the reverse direction (stored URL =
request URL plus one trailing separator) the same holds provided the
request URL does not itself end in the separator. -/
theorem handle_trailing_separator_match (env : HandlerEnv)
    (req : OIDCProvisionerRequest) (u : String) (p : ProviderListEntry)
    (hv : validateRequest req = none)
    (hl : env.listOpenIDConnectProviders = .ok [p])
    (hg : env.getOpenIDConnectProvider p.arn = .ok { url := some u })
    (ht : env.tagOpenIDConnectProvider = .ok ()) :
    (req.issuerURL = u ++ "/" →
      (Handle env req).2 = .ok ⟨p.arn, statusAlreadyExists, "OIDC provider already exists"⟩ ∧
      ∀ url tl cl, Call.createOpenIDConnectProvider url tl cl ∉ (Handle env req).1) ∧
    (u = req.issuerURL ++ "/" → req.issuerURL.data.getLast? ≠ some '/' →
      (Handle env req).2 = .ok ⟨p.arn, statusAlreadyExists, "OIDC provider already exists"⟩ ∧
      ∀ url tl cl, Call.createOpenIDConnectProvider url tl cl ∉ (Handle env req).1) := by
  constructor
  · intro hru
    have hkey : trimSuffixSlash u = trimSuffixSlash (trimSuffixSlash req.issuerURL) := by
      rw [hru, trimSuffixSlash_append_slash]
    rw [handle_single_provider_match env req u p hv hl hg ht hkey]
    exact ⟨rfl, by intro url tl cl; simp⟩
  · intro hur hnoslash
    have hreq : trimSuffixSlash req.issuerURL = req.issuerURL :=
      trimSuffixSlash_of_no_slash _ hnoslash
    have hkey : trimSuffixSlash u = trimSuffixSlash (trimSuffixSlash req.issuerURL) := by
      rw [hur, trimSuffixSlash_append_slash, hreq, hreq]
    rw [handle_single_provider_match env req u p hv hl hg ht hkey]
    exact ⟨rfl, by intro url tl cl; simp⟩

/-- Witness for C3's amended theorem: a request for
`https://example.com/` matches a provider stored as
`https://example.com`. -/
theorem handle_trailing_separator_match_witness :
    validateRequest reqSingleSlash = none ∧
    reqSingleSlash.issuerURL = "https://example.com" ++ "/" ∧
    ((Handle envStoredPlain reqSingleSlash).2 =
      .ok ⟨"arn:aws:iam::123456789012:oidc-provider/example.com",
           statusAlreadyExists, "OIDC provider already exists"⟩ ∧
     ∀ url tl cl, Call.createOpenIDConnectProvider url tl cl ∉
       (Handle envStoredPlain reqSingleSlash).1) :=
  ⟨by rfl, by decide,
   (handle_trailing_separator_match envStoredPlain reqSingleSlash "https://example.com"
     { arn := "arn:aws:iam::123456789012:oidc-provider/example.com" }
     (by rfl) rfl rfl rfl).1 (by decide)⟩

/-- C9 counterexample: for the issuer URL `https://example.com//`
(ending in more than one separator) the once-stripped request URL
differs from the stored URL `https://example.com`, yet `Handle` reports
the provider as already existing — the comparison used the
twice-stripped value, not the once-stripped value the claim says is
used consistently. -/
theorem handle_normalization_divergence_cex :
    trimSuffixSlash reqDoubleSlash.issuerURL ≠ trimSuffixSlash "https://example.com" ∧
    trimSuffixSlash (trimSuffixSlash reqDoubleSlash.issuerURL) =
      trimSuffixSlash "https://example.com" ∧
    envStoredPlain.getOpenIDConnectProvider
      "arn:aws:iam::123456789012:oidc-provider/example.com" =
      .ok { url := some "https://example.com" } ∧
    (Handle envStoredPlain reqDoubleSlash).2 =
      .ok ⟨"arn:aws:iam::123456789012:oidc-provider/example.com",
           statusAlreadyExists, "OIDC provider already exists"⟩ :=
  ⟨by decide, by decide, rfl, by rfl⟩

/-- C9 amended: the existence comparison uses the request issuer URL
stripped twice (once by `Handle`, once more by `checkProviderExists`),
while the creation call uses the issuer URL stripped once; the two
values agree exactly when the once-stripped URL does not itself end in
the separator (at most one trailing separator in the original). -/
theorem handle_normalization_double_strip (env : HandlerEnv)
    (req : OIDCProvisionerRequest) (u : String) (p : ProviderListEntry)
    (hl : env.listOpenIDConnectProviders = .ok [p])
    (hg : env.getOpenIDConnectProvider p.arn = .ok { url := some u }) :
    ((checkProviderExists env (trimSuffixSlash req.issuerURL)).2 = .ok (p.arn, true) ↔
      trimSuffixSlash u = trimSuffixSlash (trimSuffixSlash req.issuerURL)) ∧
    (createProvider env req).1 =
      [Call.createOpenIDConnectProvider (trimSuffixSlash req.issuerURL) [req.thumbprint]
        (if req.clientIDs ≠ [] then req.clientIDs else ["openshift", "sts.amazonaws.com"])] ∧
    ((trimSuffixSlash req.issuerURL).data.getLast? ≠ some '/' →
      trimSuffixSlash (trimSuffixSlash req.issuerURL) = trimSuffixSlash req.issuerURL) := by
  refine ⟨?_, rfl, fun h => trimSuffixSlash_of_no_slash _ h⟩
  constructor
  · intro hok
    by_contra hne
    simp only [checkProviderExists, hl, scanProviders, hg, if_neg hne] at hok
    simp at hok
  · intro hkey
    simp only [checkProviderExists, hl, scanProviders, hg, if_pos hkey]

/-- Witness for C9's amended theorem at a concrete environment and the
double-separator request. -/
theorem handle_normalization_double_strip_witness :
    envStoredPlain.listOpenIDConnectProviders =
      .ok [{ arn := "arn:aws:iam::123456789012:oidc-provider/example.com" }] ∧
    ((checkProviderExists envStoredPlain (trimSuffixSlash reqDoubleSlash.issuerURL)).2 =
        .ok ("arn:aws:iam::123456789012:oidc-provider/example.com", true) ↔
      trimSuffixSlash "https://example.com" =
        trimSuffixSlash (trimSuffixSlash reqDoubleSlash.issuerURL)) :=
  ⟨rfl,
   (handle_normalization_double_strip envStoredPlain reqDoubleSlash "https://example.com"
     { arn := "arn:aws:iam::123456789012:oidc-provider/example.com" } rfl rfl).1⟩

/-- C1: with the role step and the build succeeding, `Deploy` branches
on function existence: when no function exists (not-found lookup) it
creates one and returns status `created` with the new function's ARN
and a package checksum that is the digest of the built archive bytes;
when the function exists it pushes code then configuration as two
separate update calls and returns status `updated` with the pre-existing
function's ARN. -/
theorem deploy_create_update_branching (cfg : DeploymentConfig) (env : DeployEnv)
    (roleARN : String) (zipData : List Nat) (checksum : String)
    (hrole : (ensureExecutionRole cfg env).2 = .ok roleARN)
    (hbuild : Build env = .ok (zipData, checksum)) :
    (env.getFunction = .error .resourceNotFound →
      ∀ newARN, env.createFunction = .ok newARN →
        ∃ r, (Deploy cfg env).2 = .ok r ∧ r.status = "created" ∧
          r.functionARN = newARN ∧ r.packageChecksum = env.sha256Hex zipData) ∧
    (∀ out, env.getFunction = .ok out →
      env.updateFunctionCode = .ok () → env.updateFunctionConfiguration = .ok () →
      ∃ r, (Deploy cfg env).2 = .ok r ∧ r.status = "updated" ∧
        r.functionARN = out.configuration.functionArn ∧
        ∃ l1 l2, (Deploy cfg env).1 =
          l1 ++ [Call.updateFunctionCodeCall cfg.functionName zipData,
                 Call.updateFunctionConfigurationCall cfg.functionName cfg.runtime roleARN
                   "bootstrap" cfg.memorySize cfg.timeout] ++ l2) := by
  have hck : checksum = env.sha256Hex zipData := by
    unfold Build at hbuild
    cases hc : env.compileResult with
    | error e => rw [hc] at hbuild; exact absurd hbuild (by simp)
    | ok content =>
      rw [hc] at hbuild
      simp only at hbuild
      split at hbuild
      · exact absurd hbuild (by simp)
      · simp only [Except.ok.injEq, Prod.mk.injEq] at hbuild
        rw [← hbuild.1, hbuild.2]
  constructor
  · intro hg newARN hcr
    refine ⟨⟨newARN, cfg.functionName, roleARN, "/aws/lambda/" ++ cfg.functionName,
        "created", zipData.length, checksum⟩, ?_, rfl, rfl, hck⟩
    simp only [Deploy, hrole, hbuild, checkFunctionExists, hg, createFunction, hcr]
  · intro out hg hupc hupcfg
    refine ⟨⟨out.configuration.functionArn, cfg.functionName, roleARN,
        "/aws/lambda/" ++ cfg.functionName, "updated", zipData.length, checksum⟩, ?_, rfl, rfl, ?_⟩
    · simp only [Deploy, hrole, hbuild, checkFunctionExists, hg, updateFunction, hupc, hupcfg]
    · refine ⟨(ensureExecutionRole cfg env).1 ++ [Call.getFunction cfg.functionName],
        (if cfg.clmServiceRoleARN ≠ "" ∧ cfg.sourceAccountID ≠ ""
          then (addResourcePolicy cfg env).1 else []) ++
        (ensureLogGroup cfg env ("/aws/lambda/" ++ cfg.functionName)).1 ++
        (if cfg.tags ≠ [] then (tagFunction cfg env out.configuration.functionArn).1 else []), ?_⟩
      simp only [Deploy, hrole, hbuild, checkFunctionExists, hg, updateFunction, hupc, hupcfg]
      simp [List.append_assoc]

/-- Witness for C1: the all-success environment with no pre-existing
function yields a `created` result with the digest of the built
bytes. -/
theorem deploy_create_update_branching_witness :
    (ensureExecutionRole cfgBase envBase).2 =
      .ok "arn:aws:iam::123456789012:role/rosa-oidc-provisioner-role" ∧
    Build envBase = .ok ([1, 2, 3],
      "0bee89b07a248e27c83fc3d5951213c1b7447f8d9a2e7d5f2f2f8f3b1e6f7a10") ∧
    envBase.getFunction = .error .resourceNotFound ∧
    (∃ r, (Deploy cfgBase envBase).2 = .ok r ∧ r.status = "created" ∧
      r.functionARN = "arn:aws:lambda:us-east-1:123456789012:function:rosa-oidc-provisioner" ∧
      r.packageChecksum = envBase.sha256Hex [1, 2, 3]) :=
  ⟨by rfl, by rfl, rfl,
   (deploy_create_update_branching cfgBase envBase _ _ _ (by rfl) (by rfl)).1 rfl
     "arn:aws:lambda:us-east-1:123456789012:function:rosa-oidc-provisioner" rfl⟩

/-- C2: `Deploy` returns an error exactly when one of the four fatal
steps (ensure execution role, build package, check function existence,
create-or-update function) fails, and the error message identifies the
failing step; when those four succeed, the run returns a complete
result whatever the invocation-policy, log-group and function-tagging
outcomes are. -/
theorem deploy_fatal_step_classification (cfg : DeploymentConfig) (env : DeployEnv) :
    (fatalStepsOk cfg env → ∃ r, (Deploy cfg env).2 = .ok r) ∧
    (¬ fatalStepsOk cfg env → ∃ e, (Deploy cfg env).2 = .error e) ∧
    (∀ e, (Deploy cfg env).2 = .error e →
        ((∃ i, e = "failed to ensure execution role: " ++ i) ∧
          ¬ ∃ a, (ensureExecutionRole cfg env).2 = .ok a)
      ∨ ((∃ i, e = "failed to build Lambda package: " ++ i) ∧
          ¬ ∃ z, Build env = .ok z)
      ∨ ((∃ i, e = "failed to check if function exists: " ++ i) ∧
          ¬ ∃ o, (checkFunctionExists cfg env).2 = .ok o)
      ∨ (((∃ i, e = "failed to create function: " ++ i) ∨
          (∃ i, e = "failed to update function: " ++ i)) ∧
          ¬ createOrUpdateOk env)) := by
  cases hrole : (ensureExecutionRole cfg env).2 with
  | error e1 =>
    refine ⟨?_, ?_, ?_⟩
    · rintro ⟨⟨a, ha⟩, -, -, -⟩
      rw [hrole] at ha
      exact absurd ha (by simp)
    · intro _
      exact ⟨"failed to ensure execution role: " ++ e1, by simp only [Deploy, hrole]⟩
    · intro e he
      simp only [Deploy, hrole, Except.error.injEq] at he
      refine Or.inl ⟨⟨e1, he.symm⟩, ?_⟩
      rintro ⟨a, ha⟩
      exact absurd ha (by simp)
  | ok roleARN =>
    cases hbuild : Build env with
    | error e2 =>
      refine ⟨?_, ?_, ?_⟩
      · rintro ⟨-, ⟨z, hz⟩, -, -⟩
        rw [hbuild] at hz
        exact absurd hz (by simp)
      · intro _
        exact ⟨"failed to build Lambda package: " ++ e2,
          by simp only [Deploy, hrole, hbuild]⟩
      · intro e he
        simp only [Deploy, hrole, hbuild, Except.error.injEq] at he
        refine Or.inr (Or.inl ⟨⟨e2, he.symm⟩, ?_⟩)
        rintro ⟨z, hz⟩
        exact absurd hz (by simp)
    | ok zc =>
      obtain ⟨zipData, checksum⟩ := zc
      cases hg : env.getFunction with
      | error lerr =>
        cases lerr with
        | other e3 =>
          refine ⟨?_, ?_, ?_⟩
          · rintro ⟨-, -, ⟨o, ho⟩, -⟩
            simp only [checkFunctionExists, hg] at ho
            exact absurd ho (by simp)
          · intro _
            exact ⟨"failed to check if function exists: " ++ e3,
              by simp only [Deploy, hrole, hbuild, checkFunctionExists, hg]⟩
          · intro e he
            simp only [Deploy, hrole, hbuild, checkFunctionExists, hg,
              Except.error.injEq] at he
            refine Or.inr (Or.inr (Or.inl ⟨⟨e3, he.symm⟩, ?_⟩))
            rintro ⟨o, ho⟩
            simp only [checkFunctionExists, hg] at ho
            exact absurd ho (by simp)
        | resourceNotFound =>
          cases hcr : env.createFunction with
          | error e4 =>
            refine ⟨?_, ?_, ?_⟩
            · rintro ⟨-, -, -, hco⟩
              simp only [createOrUpdateOk, hg] at hco
              obtain ⟨a, ha⟩ := hco
              rw [hcr] at ha
              exact absurd ha (by simp)
            · intro _
              exact ⟨"failed to create function: " ++ e4,
                by simp only [Deploy, hrole, hbuild, checkFunctionExists, hg,
                  createFunction, hcr]⟩
            · intro e he
              simp only [Deploy, hrole, hbuild, checkFunctionExists, hg,
                createFunction, hcr, Except.error.injEq] at he
              refine Or.inr (Or.inr (Or.inr ⟨Or.inl ⟨e4, he.symm⟩, ?_⟩))
              intro hco
              simp only [createOrUpdateOk, hg] at hco
              obtain ⟨a, ha⟩ := hco
              rw [hcr] at ha
              exact absurd ha (by simp)
          | ok newARN =>
            have hfatal : fatalStepsOk cfg env := by
              refine ⟨⟨roleARN, hrole⟩, ⟨(zipData, checksum), hbuild⟩,
                ⟨none, by simp only [checkFunctionExists, hg]⟩, ?_⟩
              simp only [createOrUpdateOk, hg]
              exact ⟨newARN, hcr⟩
            have hdep : (Deploy cfg env).2 = .ok ⟨newARN, cfg.functionName, roleARN,
                "/aws/lambda/" ++ cfg.functionName, "created", zipData.length, checksum⟩ := by
              simp only [Deploy, hrole, hbuild, checkFunctionExists, hg, createFunction, hcr]
            refine ⟨fun _ => ⟨_, hdep⟩, fun hnf => absurd hfatal hnf, ?_⟩
            intro e he
            rw [hdep] at he
            exact absurd he (by simp)
      | ok out =>
        cases hupc : env.updateFunctionCode with
        | error e4 =>
          refine ⟨?_, ?_, ?_⟩
          · rintro ⟨-, -, -, hco⟩
            simp only [createOrUpdateOk, hg] at hco
            rw [hupc] at hco
            exact absurd hco.1 (by simp)
          · intro _
            exact ⟨"failed to update function: " ++ ("failed to update function code: " ++ e4),
              by simp only [Deploy, hrole, hbuild, checkFunctionExists, hg,
                updateFunction, hupc]⟩
          · intro e he
            simp only [Deploy, hrole, hbuild, checkFunctionExists, hg,
              updateFunction, hupc, Except.error.injEq] at he
            refine Or.inr (Or.inr (Or.inr ⟨Or.inr ⟨_, he.symm⟩, ?_⟩))
            intro hco
            simp only [createOrUpdateOk, hg] at hco
            rw [hupc] at hco
            exact absurd hco.1 (by simp)
        | ok u =>
          cases u
          cases hupcfg : env.updateFunctionConfiguration with
          | error e5 =>
            refine ⟨?_, ?_, ?_⟩
            · rintro ⟨-, -, -, hco⟩
              simp only [createOrUpdateOk, hg] at hco
              rw [hupcfg] at hco
              exact absurd hco.2 (by simp)
            · intro _
              exact ⟨"failed to update function: " ++
                  ("failed to update function configuration: " ++ e5),
                by simp only [Deploy, hrole, hbuild, checkFunctionExists, hg,
                  updateFunction, hupc, hupcfg]⟩
            · intro e he
              simp only [Deploy, hrole, hbuild, checkFunctionExists, hg,
                updateFunction, hupc, hupcfg, Except.error.injEq] at he
              refine Or.inr (Or.inr (Or.inr ⟨Or.inr ⟨_, he.symm⟩, ?_⟩))
              intro hco
              simp only [createOrUpdateOk, hg] at hco
              rw [hupcfg] at hco
              exact absurd hco.2 (by simp)
          | ok u2 =>
            cases u2
            have hfatal : fatalStepsOk cfg env := by
              refine ⟨⟨roleARN, hrole⟩, ⟨(zipData, checksum), hbuild⟩,
                ⟨some out, by simp only [checkFunctionExists, hg]⟩, ?_⟩
              simp only [createOrUpdateOk, hg]
              exact ⟨hupc, hupcfg⟩
            have hdep : (Deploy cfg env).2 = .ok ⟨out.configuration.functionArn,
                cfg.functionName, roleARN, "/aws/lambda/" ++ cfg.functionName,
                "updated", zipData.length, checksum⟩ := by
              simp only [Deploy, hrole, hbuild, checkFunctionExists, hg,
                updateFunction, hupc, hupcfg]
            refine ⟨fun _ => ⟨_, hdep⟩, fun hnf => absurd hfatal hnf, ?_⟩
            intro e he
            rw [hdep] at he
            exact absurd he (by simp)

/-- Witness for C2: on the all-success environment the fatal steps
succeed and `Deploy` returns a result. -/
theorem deploy_fatal_step_classification_witness :
    fatalStepsOk cfgBase envBase ∧ ∃ r, (Deploy cfgBase envBase).2 = .ok r :=
  have hfatal : fatalStepsOk cfgBase envBase :=
    ⟨⟨"arn:aws:iam::123456789012:role/rosa-oidc-provisioner-role", rfl⟩,
     ⟨([1, 2, 3], "0bee89b07a248e27c83fc3d5951213c1b7447f8d9a2e7d5f2f2f8f3b1e6f7a10"), by rfl⟩,
     ⟨none, by rfl⟩,
     ⟨"arn:aws:lambda:us-east-1:123456789012:function:rosa-oidc-provisioner", rfl⟩⟩
  ⟨hfatal, (deploy_fatal_step_classification cfgBase envBase).1 hfatal⟩

end RegionalCli
